import Mathlib

/-!
Shallow embedding of the maintenance rules engine of the asset-management
application: the work-order state machine (activos/models.py,
RegistroMantenimiento), checklist templates (PlantillaChecklist and its
manager), and the horometer alert synchronizer (horometro/services/alerts.py).
Timestamps are modelled as natural numbers, decimal quantities as rationals,
raised ValueError exceptions as the error case of Except, and database tables
as lists of records.
-/

deriving instance DecidableEq for Except

/-- Work-order states, from the TextChoices EstadoOT in activos/models.py. -/
inductive EstadoOT : Type
  | PEN
  | PRO
  | REV
  | CER
deriving DecidableEq

/-- A user as seen by the state machine: only its primary key matters
(the code tests `usuario and getattr(usuario, "pk", None)`). -/
structure Usuario : Type where
  pk : Option Nat
deriving DecidableEq

/-- One checklist row of a work order (model DetalleMantenimiento). -/
structure DetalleMantenimiento : Type where
  id : Nat
  tarea : Nat
  completado : Bool
  obligatorio : Bool
  requiere_evidencia : Bool
  orden : Nat
deriving DecidableEq

/-- The fields of RegistroMantenimiento that the lifecycle logic reads or
writes; detalles is the related set of checklist rows. -/
structure RegistroMantenimiento : Type where
  estado : EstadoOT
  asignado_a : Option Nat
  fecha_inicio_ejecucion : Option Nat
  fecha_fin_ejecucion : Option Nat
  fecha_cierre : Option Nat
  completado_por : Option Nat
  plantilla_aplicada : Option Nat
  detalles : List DetalleMantenimiento
deriving DecidableEq

/-- Python round on an exact rational: round half to even. -/
def pyRound (q : ℚ) : ℤ :=
  if q - ⌊q⌋ < 1/2 then ⌊q⌋
  else if 1/2 < q - ⌊q⌋ then ⌊q⌋ + 1
  else if ⌊q⌋ % 2 = 0 then ⌊q⌋ else ⌊q⌋ + 1

/-- Property porcentaje_avance: 0 on an empty checklist, otherwise
round(100 * completed / total). -/
def porcentaje_avance (r : RegistroMantenimiento) : ℤ :=
  let total := r.detalles.length
  if total = 0 then 0
  else pyRound ((100 * ((r.detalles.filter (fun d => d.completado)).length : ℚ)) / (total : ℚ))

/-- Method can_transition_to: the forward-only transition map. -/
def can_transition_to (r : RegistroMantenimiento) (nuevo : EstadoOT) : Bool :=
  match r.estado, nuevo with
  | .PEN, .PRO => true
  | .PRO, .REV => true
  | .REV, .CER => true
  | _, _ => false

/-- Method cerrar: stamp execution timestamps when missing, set
fecha_cierre, record the closing user when it has a primary key, and move
to CER. -/
def cerrar (r : RegistroMantenimiento) (usuario : Option Usuario) (now : Nat) :
    RegistroMantenimiento :=
  let r1 := if r.fecha_inicio_ejecucion = none then
    { r with fecha_inicio_ejecucion := some now } else r
  let r2 := if r1.fecha_fin_ejecucion = none then
    { r1 with fecha_fin_ejecucion := some now } else r1
  let r3 := { r2 with fecha_cierre := some now }
  let r4 := match usuario with
    | some u =>
      match u.pk with
      | some k => if k = 0 then r3 else { r3 with completado_por := some k }
      | none => r3
    | none => r3
  { r4 with estado := EstadoOT.CER }

/-- Method transition_to: a no-op on the current state, otherwise validate
against the transition map and the per-target guards, raising ValueError
(modelled as Except.error with a short tag for the message) when a guard
fails. -/
def transition_to (r : RegistroMantenimiento) (nuevo : EstadoOT)
    (usuario : Option Usuario) (now : Nat) : Except String RegistroMantenimiento :=
  if nuevo = r.estado then .ok r
  else if can_transition_to r nuevo = false then .error "transicion_invalida"
  else if nuevo = EstadoOT.PRO ∧ r.asignado_a = none then .error "ot_sin_asignar"
  else
    let r1 := if nuevo = EstadoOT.PRO ∧ r.fecha_inicio_ejecucion = none then
      { r with fecha_inicio_ejecucion := some now } else r
    if nuevo = EstadoOT.REV ∧ porcentaje_avance r1 < 100 then .error "checklist_incompleto"
    else
      let r2 := if nuevo = EstadoOT.REV ∧ r1.fecha_fin_ejecucion = none then
        { r1 with fecha_fin_ejecucion := some now } else r1
      if nuevo = EstadoOT.CER then .ok (cerrar r2 usuario now)
      else .ok { r2 with estado := nuevo }

/-- One row of a checklist template (model PlantillaItem). -/
structure PlantillaItem : Type where
  id : Nat
  tarea : Nat
  obligatorio : Bool
  requiere_evidencia : Bool
  orden : Nat
deriving DecidableEq

/-- A checklist template (model PlantillaChecklist) with its scoping fields
and its related items. -/
structure PlantillaChecklist : Type where
  id : Nat
  tipo : String
  vigente : Bool
  activo : Option Nat
  familia : Option Nat
  es_global : Bool
  falla : Option Nat
  version : Nat
  items : List PlantillaItem
deriving DecidableEq

/-- The fields of an asset (model Activo) used by template resolution. -/
structure Activo : Type where
  id : Nat
  familia : Option Nat
deriving DecidableEq

/-- Model of a filtered queryset followed by order_by and first: scan the
rows and keep the first row that no later row beats. -/
def pickBest (better : α → α → Bool) : List α → Option α
  | [] => none
  | x :: xs => some (xs.foldl (fun b q => if better q b then q else b) x)

/-- Comparison used by order_by("-version"): p beats q when its version is
strictly larger. -/
def versionGt (p q : PlantillaChecklist) : Bool :=
  decide (q.version < p.version)

/-- The base queryset of get_best_template_for: vigente templates of the
requested tipo. -/
def qsVigentes (db : List PlantillaChecklist) (tipo : String) : List PlantillaChecklist :=
  db.filter (fun p => p.vigente && decide (p.tipo = tipo))

/-- The falla-filtered queryset of get_best_template_for. -/
def fallaSet (db : List PlantillaChecklist) (tipo : String) (f : Nat) :
    List PlantillaChecklist :=
  (qsVigentes db tipo).filter (fun p => decide (p.falla = some f))

/-- The asset-scoped queryset of get_best_template_for. -/
def activoSet (db : List PlantillaChecklist) (tipo : String) (aid : Nat) :
    List PlantillaChecklist :=
  (qsVigentes db tipo).filter (fun p => decide (p.activo = some aid))

/-- The family-scoped queryset of get_best_template_for. -/
def familiaSet (db : List PlantillaChecklist) (tipo : String) (fam : Nat) :
    List PlantillaChecklist :=
  (qsVigentes db tipo).filter (fun p => decide (p.familia = some fam))

/-- The global queryset of get_best_template_for. -/
def globalSet (db : List PlantillaChecklist) (tipo : String) : List PlantillaChecklist :=
  (qsVigentes db tipo).filter (fun p => p.es_global)

/-- Manager method PlantillaChecklistManager.get_best_template_for, over a
list db holding the template table. -/
def get_best_template_for (db : List PlantillaChecklist) (activo : Activo)
    (tipo : String) (falla : Option Nat) : Option PlantillaChecklist :=
  let porFalla : Option PlantillaChecklist :=
    match falla with
    | some f => pickBest versionGt (fallaSet db tipo f)
    | none => none
  match porFalla with
  | some t => some t
  | none =>
    match pickBest versionGt (activoSet db tipo activo.id) with
    | some t => some t
    | none =>
      match activo.familia with
      | some fam =>
        match pickBest versionGt (familiaSet db tipo fam) with
        | some t => some t
        | none => pickBest versionGt (globalSet db tipo)
      | none => pickBest versionGt (globalSet db tipo)

/-- Default ordering of PlantillaItem rows, from Meta.ordering = ["orden", "id"]. -/
def itemLe (a b : PlantillaItem) : Prop :=
  a.orden < b.orden ∨ (a.orden = b.orden ∧ a.id ≤ b.id)

instance : DecidableRel itemLe := fun a b => by
  unfold itemLe
  exact inferInstance

instance : IsTotal PlantillaItem itemLe :=
  ⟨fun a b => by unfold itemLe; omega⟩

instance : IsTrans PlantillaItem itemLe :=
  ⟨fun a b c hab hbc => by unfold itemLe at *; omega⟩

/-- Default ordering of DetalleMantenimiento rows, from
Meta.ordering = ["orden", "id"]. -/
def detalleLe (a b : DetalleMantenimiento) : Prop :=
  a.orden < b.orden ∨ (a.orden = b.orden ∧ a.id ≤ b.id)

/-- Rows created by bulk_create from a list of template items: the primary
keys are assigned sequentially from nextId in list order. -/
def buildDetalles (nextId : Nat) : List PlantillaItem → List DetalleMantenimiento
  | [] => []
  | it :: rest =>
    { id := nextId, tarea := it.tarea, completado := false,
      obligatorio := it.obligatorio, requiere_evidencia := it.requiere_evidencia,
      orden := it.orden } :: buildDetalles (nextId + 1) rest

/-- Method aplicar_plantilla: read the template items in their default
order, delete the existing checklist, bulk_create the copies, and record
the applied template. -/
def aplicar_plantilla (r : RegistroMantenimiento) (pl : PlantillaChecklist)
    (nextId : Nat) : RegistroMantenimiento :=
  { r with detalles := buildDetalles nextId (List.insertionSort itemLe pl.items),
           plantilla_aplicada := some pl.id }

/-- The fields of a checklist row copied from a template item. -/
def detalleCampos (d : DetalleMantenimiento) : Nat × Bool × Bool × Nat :=
  (d.tarea, d.obligatorio, d.requiere_evidencia, d.orden)

/-- The fields of a template item that aplicar_plantilla copies. -/
def itemCampos (it : PlantillaItem) : Nat × Bool × Bool × Nat :=
  (it.tarea, it.obligatorio, it.requiere_evidencia, it.orden)

/-- A weekly horometer reading (model LecturaHorometro); the decimal
measurements are rationals, the nullable ones wrapped in Option. -/
structure LecturaHorometro : Type where
  activo : Nat
  anio : Nat
  semana : Nat
  lectura : Option ℚ
  ciclos_oracle : Option ℚ
  ciclo_ultimo_preventivo : Option ℚ
  ciclos_desde_ultimo_preventivo : Option ℚ
deriving DecidableEq

/-- Alert states, from AlertaMantenimiento.ESTADOS. -/
inductive EstadoAlerta : Type
  | NUEVA
  | EN_PROCESO
  | CERRADA
deriving DecidableEq

/-- An alert row (model AlertaMantenimiento) as read and written by the
synchronizer. -/
structure AlertaMantenimiento : Type where
  activo : Nat
  anio : Nat
  semana : Nat
  valor_ciclos : ℚ
  umbral : ℚ
  estado : EstadoAlerta
  cerrado_en : Option Nat
deriving DecidableEq

/-- The result dataclass SyncResult of horometro/services/alerts.py. -/
structure SyncResult : Type where
  created : Bool := false
  updated : Bool := false
  closed_previous : Bool := false
  closed_existing : Bool := false
  skipped : Bool := false
  reason : String := ""
deriving DecidableEq

/-- The fixed alert threshold ALERTA_UMBRAL = Decimal("70000"). -/
def ALERTA_UMBRAL : ℚ := 70000

/-- Helper _ywk_key: encode a year and an ISO week as y * 100 + w. -/
def ywkKey (y w : Nat) : ℤ :=
  (y : ℤ) * 100 + (w : ℤ)

/-- Helper _delta_prev: cycles since the last preventive maintenance. -/
def delta_prev (lh : LecturaHorometro) : Option ℚ :=
  match lh.ciclos_desde_ultimo_preventivo with
  | some d => some d
  | none =>
    let base := match lh.lectura with
      | some x => some x
      | none => lh.ciclos_oracle
    match base, lh.ciclo_ultimo_preventivo with
    | some b, some c => some (b - c)
    | _, _ => none

/-- Helper _has_later_reading: does a reading with a strictly later
year/week pair exist for the same asset? -/
def has_later_reading (lecturas : List LecturaHorometro) (lh : LecturaHorometro) : Bool :=
  lecturas.any (fun l2 =>
    decide (l2.activo = lh.activo) &&
      (decide (lh.anio < l2.anio) ||
        (decide (l2.anio = lh.anio) && decide (lh.semana < l2.semana))))

/-- Comparison used by order_by("-anio", "-semana"): a beats b when its
year/week pair is lexicographically later. -/
def laterYwk (a b : AlertaMantenimiento) : Bool :=
  decide (b.anio < a.anio) || (decide (a.anio = b.anio) && decide (b.semana < a.semana))

/-- The open alert (NUEVA or EN_PROCESO) with the latest year/week pair
for an asset, as queried by sync_alert_for_reading. -/
def openAlertFor (alertas : List AlertaMantenimiento) (activo : Nat) :
    Option AlertaMantenimiento :=
  pickBest laterYwk
    (alertas.filter (fun a =>
      decide (a.activo = activo) &&
        (decide (a.estado = EstadoAlerta.NUEVA) ||
          decide (a.estado = EstadoAlerta.EN_PROCESO))))

/-- The lookup key of get_or_create: same asset, year and week as the
reading. -/
def tripleMatch (lh : LecturaHorometro) (a : AlertaMantenimiento) : Bool :=
  decide (a.activo = lh.activo) && decide (a.anio = lh.anio) && decide (a.semana = lh.semana)

/-- Mark an alert row CERRADA and stamp cerrado_en. -/
def closeAlert (now : Nat) (a : AlertaMantenimiento) : AlertaMantenimiento :=
  { a with estado := EstadoAlerta.CERRADA, cerrado_en := some now }

/-- The defaults of get_or_create: a fresh NUEVA alert for the reading. -/
def nuevaAlerta (lh : LecturaHorometro) (d umbral : ℚ) : AlertaMantenimiento :=
  { activo := lh.activo, anio := lh.anio, semana := lh.semana, valor_ciclos := d, umbral := umbral, estado := EstadoAlerta.NUEVA, cerrado_en := none }

/-- The update applied to an existing alert row: refresh valor_ciclos and
umbral, keeping its estado. -/
def actualizaValores (d umbral : ℚ) (a : AlertaMantenimiento) : AlertaMantenimiento :=
  { a with valor_ciclos := d, umbral := umbral }

/-- Apply f to the first row satisfying p, the model of saving one fetched
row back to its table. -/
def updateFirst (p : α → Bool) (f : α → α) : List α → List α
  | [] => []
  | x :: xs => if p x then f x :: xs else x :: updateFirst p f xs

/-- Service sync_alert_for_reading: returns the SyncResult together with
the new state of the alert table. -/
def sync_alert_for_reading (lecturas : List LecturaHorometro)
    (alertas : List AlertaMantenimiento) (lh : LecturaHorometro)
    (umbral : ℚ) (only_latest : Bool) (now : Nat) :
    SyncResult × List AlertaMantenimiento :=
  if only_latest && has_later_reading lecturas lh then
    ({ skipped := true, reason := "no_es_ultima_semana" }, alertas)
  else
    match delta_prev lh with
    | none => ({ skipped := true, reason := "sin_delta" }, alertas)
    | some dprev =>
      if dprev < 0 then ({ skipped := true, reason := "delta_negativo" }, alertas)
      else
        let openA := openAlertFor alertas lh.activo
        let thisKey : ℤ := ywkKey lh.anio lh.semana
        if umbral ≤ dprev then
          let paso1 : Bool × List AlertaMantenimiento :=
            match openA with
            | some oa =>
              if ywkKey oa.anio oa.semana < thisKey then
                (true, updateFirst (fun a => decide (a = oa)) (closeAlert now) alertas)
              else (false, alertas)
            | none => (false, alertas)
          match (paso1.2).find? (tripleMatch lh) with
          | none =>
            ({ created := true, closed_previous := paso1.1 },
              paso1.2 ++ [nuevaAlerta lh dprev umbral])
          | some _ =>
            ({ updated := true, closed_previous := paso1.1 },
              updateFirst (tripleMatch lh) (actualizaValores dprev umbral) paso1.2)
        else
          match openA with
          | some oa =>
            if ywkKey oa.anio oa.semana ≤ thisKey then
              ({ closed_existing := true },
                updateFirst (fun a => decide (a = oa)) (closeAlert now) alertas)
            else ({ skipped := true, reason := "debajo_umbral" }, alertas)
          | none => ({ skipped := true, reason := "debajo_umbral" }, alertas)

/-- Sample work order in state CER, used to evaluate theorems on concrete
inputs. -/
def muestraCER : RegistroMantenimiento :=
  ⟨EstadoOT.CER, none, none, none, none, none, none, []⟩

/-- Sample assigned work order in state PEN. -/
def muestraPEN : RegistroMantenimiento :=
  ⟨EstadoOT.PEN, some 3, none, none, none, none, none, []⟩

/-- Sample work order in state PRO with an empty checklist. -/
def muestraPRO0 : RegistroMantenimiento :=
  ⟨EstadoOT.PRO, some 3, some 1, none, none, none, none, []⟩

/-- Sample work order in state PRO whose single checklist row is
completed. -/
def muestraPRO1 : RegistroMantenimiento :=
  ⟨EstadoOT.PRO, some 3, some 1, some 2, none, none, none,
    [⟨10, 0, true, false, false, 0⟩]⟩

/-- Sample work order in state REV with no execution timestamps yet. -/
def muestraREV : RegistroMantenimiento :=
  ⟨EstadoOT.REV, some 3, none, none, none, none, none, []⟩

/-- Work order in state PRO with 200 checklist rows of which 199 are
completed: 100 * 199 / 200 = 99.5 rounds to 100. -/
def regDoscientos : RegistroMantenimiento :=
  ⟨EstadoOT.PRO, some 3, some 1, some 2, none, none, none,
    List.replicate 199 ⟨0, 0, true, false, false, 0⟩ ++
      [⟨1, 1, false, false, false, 0⟩]⟩

/-- Sample asset with id 1 and no family. -/
def activoUno : Activo := ⟨1, none⟩

/-- Vigente corrective template scoped to asset 1, carrying failure code 5,
version 1. -/
def plantillaActivoFalla : PlantillaChecklist :=
  ⟨1, "COR", true, some 1, none, false, some 5, 1, []⟩

/-- Vigente global corrective template carrying failure code 5, version 2. -/
def plantillaGlobalFalla : PlantillaChecklist :=
  ⟨2, "COR", true, none, none, true, some 5, 2, []⟩

/-- Sample work order holding one old checklist row. -/
def muestraOT : RegistroMantenimiento :=
  ⟨EstadoOT.PEN, none, none, none, none, none, none,
    [⟨0, 9, false, false, false, 0⟩]⟩

/-- Sample template whose two items arrive out of display order. -/
def plantillaDosItems : PlantillaChecklist :=
  ⟨7, "PRE", true, none, none, true, none, 1,
    [⟨21, 4, true, false, 2⟩, ⟨20, 3, false, true, 1⟩]⟩

/-- Reading of asset 7 in week 2025-30 with a recorded delta of 90000
cycles since the last preventive. -/
def lecturaAlta : LecturaHorometro :=
  ⟨7, 2025, 30, some 100000, none, none, some 90000⟩

/-- Reading of asset 7 in week 2025-30 with a recorded delta of 50000
cycles since the last preventive. -/
def lecturaBaja : LecturaHorometro :=
  ⟨7, 2025, 30, some 100000, none, none, some 50000⟩

/-- Older reading of asset 7, week 2025-20. -/
def lecturaVieja : LecturaHorometro :=
  ⟨7, 2025, 20, some 80000, none, none, some 80000⟩

/-- Open alert of asset 7 raised in week 2025-20. -/
def alertaAbierta : AlertaMantenimiento :=
  ⟨7, 2025, 20, 80000, 70000, EstadoAlerta.NUEVA, none⟩

/-! Helper lemmas shared by the claim theorems. -/

/-- The rounded value reaches 100 exactly when the exact value reaches 99.5
(the floor 99 is odd, so the tie at 99.5 rounds up). -/
theorem pyRound_ge_100 (q : ℚ) : 100 ≤ pyRound q ↔ (199 : ℚ)/2 ≤ q := by
  unfold pyRound
  have hfl : ((⌊q⌋ : ℤ) : ℚ) ≤ q := Int.floor_le q
  have hlt : q < (⌊q⌋ : ℚ) + 1 := Int.lt_floor_add_one q
  by_cases h1 : q - (⌊q⌋ : ℚ) < 1/2
  · rw [if_pos h1]
    constructor
    · intro h
      have h100 : (100 : ℚ) ≤ ((⌊q⌋ : ℤ) : ℚ) := by exact_mod_cast h
      linarith
    · intro h
      have h99 : (99 : ℚ) < ((⌊q⌋ : ℤ) : ℚ) := by linarith
      have h99i : (99 : ℤ) < ⌊q⌋ := by exact_mod_cast h99
      omega
  · rw [if_neg h1]
    by_cases h2 : 1/2 < q - (⌊q⌋ : ℚ)
    · rw [if_pos h2]
      constructor
      · intro h
        have h99 : (99 : ℤ) ≤ ⌊q⌋ := by omega
        have h99q : (99 : ℚ) ≤ ((⌊q⌋ : ℤ) : ℚ) := by exact_mod_cast h99
        linarith
      · intro h
        have h99 : (99 : ℚ) ≤ q := by linarith
        have h99i : (99 : ℤ) ≤ ⌊q⌋ := Int.le_floor.mpr (by exact_mod_cast h99)
        omega
    · rw [if_neg h2]
      have heq : q - (⌊q⌋ : ℚ) = 1/2 := le_antisymm (not_lt.mp h2) (not_lt.mp h1)
      by_cases h3 : ⌊q⌋ % 2 = 0
      · rw [if_pos h3]
        constructor
        · intro h
          have h100 : (100 : ℚ) ≤ ((⌊q⌋ : ℤ) : ℚ) := by exact_mod_cast h
          linarith
        · intro h
          have h99 : (99 : ℚ) ≤ ((⌊q⌋ : ℤ) : ℚ) := by linarith
          have h99i : (99 : ℤ) ≤ ⌊q⌋ := by exact_mod_cast h99
          omega
      · rw [if_neg h3]
        constructor
        · intro h
          have h99 : (99 : ℤ) ≤ ⌊q⌋ := by omega
          have h99q : (99 : ℚ) ≤ ((⌊q⌋ : ℤ) : ℚ) := by exact_mod_cast h99
          linarith
        · intro h
          have h99 : (99 : ℚ) ≤ ((⌊q⌋ : ℤ) : ℚ) := by linarith
          have h99i : (99 : ℤ) ≤ ⌊q⌋ := by exact_mod_cast h99
          omega

/-- The progress percentage reaches 100 exactly when the checklist is
nonempty and at least a 199/200 fraction of its rows is completed. -/
theorem porcentaje_ge_100_iff (r : RegistroMantenimiento) :
    100 ≤ porcentaje_avance r ↔
      (0 < r.detalles.length ∧
        199 * r.detalles.length ≤
          200 * (r.detalles.filter (fun d => d.completado)).length) := by
  unfold porcentaje_avance
  by_cases h0 : r.detalles.length = 0
  · rw [if_pos h0]
    simp [h0]
  · rw [if_neg h0]
    have hpos : 0 < r.detalles.length := Nat.pos_of_ne_zero h0
    have htq : (0 : ℚ) < (r.detalles.length : ℚ) := by exact_mod_cast hpos
    rw [pyRound_ge_100, div_le_div_iff₀ (by norm_num) htq]
    constructor
    · intro hq
      refine ⟨hpos, ?_⟩
      have hcast : (199 * r.detalles.length : ℚ) ≤
          (200 * (r.detalles.filter (fun d => d.completado)).length : ℚ) := by
        push_cast at hq ⊢
        linarith
      exact_mod_cast hcast
    · rintro ⟨-, hn⟩
      have hcast : (199 * r.detalles.length : ℚ) ≤
          (200 * (r.detalles.filter (fun d => d.completado)).length : ℚ) := by
        exact_mod_cast hn
      push_cast at hcast ⊢
      linarith

/-- pickBest returns none exactly on the empty list. -/
theorem pickBest_eq_none_iff (better : α → α → Bool) (l : List α) :
    pickBest better l = none ↔ l = [] := by
  cases l <;> simp [pickBest]

/-- The accumulator of the pickBest scan is the start value or a scanned
element. -/
theorem foldl_pick_mem (better : α → α → Bool) :
    ∀ (ys : List α) (b : α),
      ys.foldl (fun b q => if better q b then q else b) b = b ∨
        ys.foldl (fun b q => if better q b then q else b) b ∈ ys := by
  intro ys
  induction ys with
  | nil => intro b; exact Or.inl rfl
  | cons y ys ih =>
    intro b
    simp only [List.foldl_cons]
    rcases ih (if better y b then y else b) with h | h
    · rw [h]
      by_cases hb : better y b = true
      · rw [if_pos hb]
        exact Or.inr (List.mem_cons_self y ys)
      · rw [if_neg hb]
        exact Or.inl rfl
    · exact Or.inr (List.mem_cons_of_mem y h)

/-- The row selected by pickBest belongs to the list. -/
theorem pickBest_mem {better : α → α → Bool} {l : List α} {x : α}
    (h : pickBest better l = some x) : x ∈ l := by
  cases l with
  | nil => simp [pickBest] at h
  | cons a as =>
    simp only [pickBest, Option.some.injEq] at h
    rcases foldl_pick_mem better as a with h2 | h2
    · rw [h] at h2
      rw [h2]
      exact List.mem_cons_self a as
    · rw [h] at h2
      exact List.mem_cons_of_mem a h2

/-- The version of the pickBest scan accumulator only grows, and dominates
every scanned element. -/
theorem foldl_version_le :
    ∀ (ys : List PlantillaChecklist) (b : PlantillaChecklist),
      b.version ≤ (ys.foldl (fun b q => if versionGt q b then q else b) b).version ∧
        ∀ q ∈ ys, q.version ≤ (ys.foldl (fun b q => if versionGt q b then q else b) b).version := by
  intro ys
  induction ys with
  | nil =>
    intro b
    exact ⟨Nat.le_refl _, by intro q hq; simp at hq⟩
  | cons y ys ih =>
    intro b
    simp only [List.foldl_cons]
    obtain ⟨h1, h2⟩ := ih (if versionGt y b then y else b)
    have hb : b.version ≤ (if versionGt y b then y else b).version := by
      by_cases hv : versionGt y b = true
      · rw [if_pos hv]
        unfold versionGt at hv
        simp at hv
        omega
      · rw [if_neg hv]
    have hy : y.version ≤ (if versionGt y b then y else b).version := by
      by_cases hv : versionGt y b = true
      · rw [if_pos hv]
      · rw [if_neg hv]
        unfold versionGt at hv
        simp at hv
        omega
    refine ⟨le_trans hb h1, ?_⟩
    intro q hq
    rcases List.mem_cons.mp hq with rfl | hq2
    · exact le_trans hy h1
    · exact h2 q hq2

/-- The row selected by pickBest under the version ordering has the
maximal version in the list. -/
theorem pickBest_version_max {l : List PlantillaChecklist} {x : PlantillaChecklist}
    (h : pickBest versionGt l = some x) : ∀ q ∈ l, q.version ≤ x.version := by
  cases l with
  | nil => simp [pickBest] at h
  | cons a as =>
    simp only [pickBest, Option.some.injEq] at h
    intro q hq
    obtain ⟨h1, h2⟩ := foldl_version_le as a
    rcases List.mem_cons.mp hq with rfl | hq2
    · rw [← h]
      exact h1
    · rw [← h]
      exact h2 q hq2

/-- If find? locates a row, updateFirst keeps its image in the table. -/
theorem updateFirst_mem_of_find {p : α → Bool} {f : α → α} :
    ∀ {l : List α} {x : α}, l.find? p = some x → f x ∈ updateFirst p f l := by
  intro l
  induction l with
  | nil => intro x h; simp at h
  | cons a as ih =>
    intro x h
    by_cases hp : p a = true
    · rw [List.find?_cons_of_pos _ hp] at h
      obtain rfl : a = x := by injection h
      unfold updateFirst
      rw [if_pos hp]
      exact List.mem_cons_self _ _
    · rw [List.find?_cons_of_neg _ (by simp [hp])] at h
      unfold updateFirst
      rw [if_neg hp]
      exact List.mem_cons_of_mem a (ih h)

/-- Updating the first occurrence of a member keeps its image in the
table. -/
theorem updateFirst_mem_self [DecidableEq α] {f : α → α} :
    ∀ {l : List α} {x : α}, x ∈ l →
      f x ∈ updateFirst (fun a => decide (a = x)) f l := by
  intro l
  induction l with
  | nil => intro x h; simp at h
  | cons a as ih =>
    intro x h
    by_cases hax : a = x
    · subst hax
      unfold updateFirst
      rw [if_pos (by simp)]
      exact List.mem_cons_self _ _
    · have hx : x ∈ as := by
        rcases List.mem_cons.mp h with h1 | h1
        · exact absurd h1.symm hax
        · exact h1
      unfold updateFirst
      rw [if_neg (by simp [hax])]
      exact List.mem_cons_of_mem a (ih hx)

/-- bulk_create copies exactly the template fields, in list order. -/
theorem buildDetalles_map :
    ∀ (l : List PlantillaItem) (n : Nat),
      (buildDetalles n l).map detalleCampos = l.map itemCampos := by
  intro l
  induction l with
  | nil => intro n; rfl
  | cons it rest ih =>
    intro n
    simp only [buildDetalles, List.map_cons, ih]
    rfl

/-- bulk_create creates one row per template item. -/
theorem buildDetalles_length :
    ∀ (l : List PlantillaItem) (n : Nat), (buildDetalles n l).length = l.length := by
  intro l
  induction l with
  | nil => intro n; rfl
  | cons it rest ih =>
    intro n
    simp only [buildDetalles, List.length_cons, ih]

/-- Every row created by bulk_create receives a primary key at least the
starting key. -/
theorem buildDetalles_id_ge :
    ∀ (l : List PlantillaItem) (n : Nat) (d : DetalleMantenimiento),
      d ∈ buildDetalles n l → n ≤ d.id := by
  intro l
  induction l with
  | nil => intro n d h; simp [buildDetalles] at h
  | cons it rest ih =>
    intro n d h
    rcases List.mem_cons.mp h with rfl | h2
    · exact Nat.le_refl n
    · have := ih (n + 1) d h2
      omega

/-- Every row created by bulk_create takes its orden from some template
item of the list. -/
theorem buildDetalles_orden :
    ∀ (l : List PlantillaItem) (n : Nat) (d : DetalleMantenimiento),
      d ∈ buildDetalles n l → ∃ it ∈ l, d.orden = it.orden := by
  intro l
  induction l with
  | nil => intro n d h; simp [buildDetalles] at h
  | cons it rest ih =>
    intro n d h
    rcases List.mem_cons.mp h with rfl | h2
    · exact ⟨it, List.mem_cons_self _ _, rfl⟩
    · obtain ⟨it2, hm, he⟩ := ih (n + 1) d h2
      exact ⟨it2, List.mem_cons_of_mem _ hm, he⟩

/-- When the template items arrive with nondecreasing orden, the created
rows are already in the checklist display order (orden, then id). -/
theorem buildDetalles_sorted :
    ∀ (l : List PlantillaItem),
      l.Pairwise (fun a b => a.orden ≤ b.orden) →
        ∀ n, List.Sorted detalleLe (buildDetalles n l) := by
  intro l
  induction l with
  | nil => intro _ n; simp [buildDetalles, List.Sorted]
  | cons it rest ih =>
    intro hl n
    rw [List.pairwise_cons] at hl
    rw [buildDetalles, List.sorted_cons]
    refine ⟨?_, ih hl.2 (n + 1)⟩
    intro d hd
    have hid : n + 1 ≤ d.id := buildDetalles_id_ge rest (n + 1) d hd
    obtain ⟨it2, hm, he⟩ := buildDetalles_orden rest (n + 1) d hd
    have hord : it.orden ≤ d.orden := he ▸ hl.1 it2 hm
    unfold detalleLe
    simp only []
    omega

/-- Claim C10: transition_to on the current state — including CER to CER —
returns without raising and changes nothing. -/
theorem c10_transition_self (r : RegistroMantenimiento) (u : Option Usuario)
    (now : Nat) : transition_to r r.estado u now = Except.ok r := by
  unfold transition_to
  rw [if_pos rfl]

/-- Claim C1: for a target different from the current state, the permitted
transitions are exactly PEN to PRO, PRO to REV and REV to CER (none out of
CER), and any other target makes transition_to raise ValueError, leaving
the work order untouched. -/
theorem c1_invalid_transition (r : RegistroMantenimiento) (nuevo : EstadoOT)
    (u : Option Usuario) (now : Nat) (hne : nuevo ≠ r.estado) :
    (can_transition_to r nuevo = true ↔
      ((r.estado = EstadoOT.PEN ∧ nuevo = EstadoOT.PRO) ∨
        (r.estado = EstadoOT.PRO ∧ nuevo = EstadoOT.REV) ∨
        (r.estado = EstadoOT.REV ∧ nuevo = EstadoOT.CER)))
    ∧ (can_transition_to r nuevo = false →
        transition_to r nuevo u now = Except.error "transicion_invalida") := by
  constructor
  · obtain ⟨es, a1, a2, a3, a4, a5, a6, a7⟩ := r
    cases es <;> cases nuevo <;> simp [can_transition_to]
  · intro hc
    unfold transition_to
    rw [if_neg hne, if_pos hc]

/-- Witness for C1 at a closed order: CER to PEN is rejected. -/
theorem c1_invalid_transition_witness :
    EstadoOT.PEN ≠ muestraCER.estado ∧
      transition_to muestraCER EstadoOT.PEN none 0 =
        Except.error "transicion_invalida" :=
  ⟨by decide, (c1_invalid_transition muestraCER EstadoOT.PEN none 0 (by decide)).2 (by decide)⟩

/-- Claim C9: a work order with an empty checklist has progress 0, so in
state PRO it can never pass to REV. -/
theorem c9_empty_checklist (r : RegistroMantenimiento) (u : Option Usuario)
    (now : Nat) (hdet : r.detalles = []) :
    porcentaje_avance r = 0 ∧
      (r.estado = EstadoOT.PRO →
        transition_to r EstadoOT.REV u now = Except.error "checklist_incompleto") := by
  have hp : porcentaje_avance r = 0 := by
    unfold porcentaje_avance
    rw [hdet]
    rfl
  refine ⟨hp, ?_⟩
  intro hpro
  have hcan : can_transition_to r EstadoOT.REV = true := by
    unfold can_transition_to
    rw [hpro]
  simp [transition_to, hpro, hcan, hp]

/-- Witness for C9: a PRO order with no checklist rows is stuck. -/
theorem c9_empty_checklist_witness :
    muestraPRO0.detalles = [] ∧ porcentaje_avance muestraPRO0 = 0 ∧
      transition_to muestraPRO0 EstadoOT.REV none 9 =
        Except.error "checklist_incompleto" :=
  ⟨rfl, (c9_empty_checklist muestraPRO0 none 9 rfl).1,
    (c9_empty_checklist muestraPRO0 none 9 rfl).2 rfl⟩

/-- Claim C6: from PEN to PRO, an unassigned order raises ValueError and
stays untouched; an assigned one succeeds and stamps
fecha_inicio_ejecucion when it was unset. -/
theorem c6_pen_pro (r : RegistroMantenimiento) (u : Option Usuario) (now : Nat)
    (hpen : r.estado = EstadoOT.PEN) :
    (r.asignado_a = none →
      transition_to r EstadoOT.PRO u now = Except.error "ot_sin_asignar")
    ∧ (r.asignado_a ≠ none →
      transition_to r EstadoOT.PRO u now =
        Except.ok { r with estado := EstadoOT.PRO, fecha_inicio_ejecucion := if r.fecha_inicio_ejecucion = none then some now else r.fecha_inicio_ejecucion }) := by
  have hcan : can_transition_to r EstadoOT.PRO = true := by
    unfold can_transition_to
    rw [hpen]
  constructor
  · intro ha
    simp [transition_to, hpen, hcan, ha]
  · intro ha
    by_cases hfi : r.fecha_inicio_ejecucion = none
    · simp [transition_to, hpen, hcan, ha, hfi]
    · simp [transition_to, hpen, hcan, ha, hfi]

/-- Witness for C6: an assigned PEN order moves to PRO and the start of
execution is stamped. -/
theorem c6_pen_pro_witness :
    muestraPEN.asignado_a ≠ none ∧
      transition_to muestraPEN EstadoOT.PRO none 5 =
        Except.ok { muestraPEN with estado := EstadoOT.PRO, fecha_inicio_ejecucion := some 5 } :=
  ⟨by decide, (c6_pen_pro muestraPEN none 5 rfl).2 (by decide)⟩

/-- cerrar always ends in state CER. -/
theorem cerrar_estado (r : RegistroMantenimiento) (u : Option Usuario)
    (now : Nat) : (cerrar r u now).estado = EstadoOT.CER := by
  rcases u with _ | ⟨_ | k⟩ <;>
    cases hfi : r.fecha_inicio_ejecucion <;>
      cases hff : r.fecha_fin_ejecucion <;>
        simp [cerrar, hfi, hff]

/-- cerrar stamps fecha_cierre with the closing time. -/
theorem cerrar_fecha_cierre (r : RegistroMantenimiento) (u : Option Usuario)
    (now : Nat) : (cerrar r u now).fecha_cierre = some now := by
  rcases u with _ | ⟨_ | k⟩ <;>
    cases hfi : r.fecha_inicio_ejecucion <;>
      cases hff : r.fecha_fin_ejecucion <;>
        first
        | (simp [cerrar, hfi, hff]; done)
        | (by_cases hk : k = 0 <;> simp [cerrar, hfi, hff, hk])

/-- cerrar keeps fecha_inicio_ejecucion, stamping it when it was unset. -/
theorem cerrar_fecha_inicio (r : RegistroMantenimiento) (u : Option Usuario)
    (now : Nat) :
    (cerrar r u now).fecha_inicio_ejecucion =
      some (r.fecha_inicio_ejecucion.getD now) := by
  rcases u with _ | ⟨_ | k⟩ <;>
    cases hfi : r.fecha_inicio_ejecucion <;>
      cases hff : r.fecha_fin_ejecucion <;>
        first
        | (simp [cerrar, hfi, hff]; done)
        | (by_cases hk : k = 0 <;> simp [cerrar, hfi, hff, hk])

/-- cerrar keeps fecha_fin_ejecucion, stamping it when it was unset. -/
theorem cerrar_fecha_fin (r : RegistroMantenimiento) (u : Option Usuario)
    (now : Nat) :
    (cerrar r u now).fecha_fin_ejecucion =
      some (r.fecha_fin_ejecucion.getD now) := by
  rcases u with _ | ⟨_ | k⟩ <;>
    cases hfi : r.fecha_inicio_ejecucion <;>
      cases hff : r.fecha_fin_ejecucion <;>
        first
        | (simp [cerrar, hfi, hff]; done)
        | (by_cases hk : k = 0 <;> simp [cerrar, hfi, hff, hk])

/-- cerrar records the closing user when it carries a nonzero primary
key. -/
theorem cerrar_completado_por (r : RegistroMantenimiento) (usr : Usuario)
    (k : Nat) (now : Nat) (hpk : usr.pk = some k) (hk : k ≠ 0) :
    (cerrar r (some usr) now).completado_por = some k := by
  obtain ⟨pk⟩ := usr
  have hp2 : pk = some k := hpk
  subst hp2
  cases hfi : r.fecha_inicio_ejecucion <;>
    cases hff : r.fecha_fin_ejecucion <;>
      simp [cerrar, hfi, hff, hk]

/-- Claim C7: from REV, transition_to CER closes the order, stamping
fecha_cierre and any missing execution timestamps with the closing time,
and records a supplied persisted user as completado_por. -/
theorem c7_rev_cer (r : RegistroMantenimiento) (u : Option Usuario) (now : Nat)
    (hrev : r.estado = EstadoOT.REV) :
    transition_to r EstadoOT.CER u now = Except.ok (cerrar r u now)
      ∧ (cerrar r u now).estado = EstadoOT.CER
      ∧ (cerrar r u now).fecha_cierre = some now
      ∧ (cerrar r u now).fecha_inicio_ejecucion =
          some (r.fecha_inicio_ejecucion.getD now)
      ∧ (cerrar r u now).fecha_fin_ejecucion =
          some (r.fecha_fin_ejecucion.getD now)
      ∧ (∀ usr k, u = some usr → usr.pk = some k → k ≠ 0 →
          (cerrar r u now).completado_por = some k) := by
  have hcan : can_transition_to r EstadoOT.CER = true := by
    unfold can_transition_to
    rw [hrev]
  refine ⟨?_, cerrar_estado r u now, cerrar_fecha_cierre r u now,
    cerrar_fecha_inicio r u now, cerrar_fecha_fin r u now, ?_⟩
  · simp [transition_to, hrev, hcan]
  · intro usr k hu hpk hk
    subst hu
    exact cerrar_completado_por r usr k now hpk hk

/-- Witness for C7: a bare REV order closed by a persisted user gets all
three timestamps stamped with the closing time. -/
theorem c7_rev_cer_witness :
    transition_to muestraREV EstadoOT.CER (some ⟨some 4⟩) 11 =
        Except.ok (cerrar muestraREV (some ⟨some 4⟩) 11)
      ∧ (cerrar muestraREV (some ⟨some 4⟩) 11).estado = EstadoOT.CER
      ∧ (cerrar muestraREV (some ⟨some 4⟩) 11).fecha_cierre = some 11
      ∧ (cerrar muestraREV (some ⟨some 4⟩) 11).fecha_inicio_ejecucion = some 11
      ∧ (cerrar muestraREV (some ⟨some 4⟩) 11).fecha_fin_ejecucion = some 11
      ∧ (cerrar muestraREV (some ⟨some 4⟩) 11).completado_por = some 4 := by
  have h := c7_rev_cer muestraREV (some ⟨some 4⟩) 11 rfl
  exact ⟨h.1, h.2.1, h.2.2.1, h.2.2.2.1, h.2.2.2.2.1,
    h.2.2.2.2.2 ⟨some 4⟩ 4 rfl rfl (by decide)⟩

/-- From PRO, transition_to REV fails while the rounded progress is below
100. -/
theorem transition_pro_rev_lt (r : RegistroMantenimiento) (u : Option Usuario)
    (now : Nat) (hpro : r.estado = EstadoOT.PRO)
    (hlt : porcentaje_avance r < 100) :
    transition_to r EstadoOT.REV u now = Except.error "checklist_incompleto" := by
  have hcan : can_transition_to r EstadoOT.REV = true := by
    unfold can_transition_to
    rw [hpro]
  simp [transition_to, hpro, hcan, hlt]

/-- From PRO, transition_to REV succeeds once the rounded progress reaches
100, stamping fecha_fin_ejecucion when it was unset. -/
theorem transition_pro_rev_ge (r : RegistroMantenimiento) (u : Option Usuario)
    (now : Nat) (hpro : r.estado = EstadoOT.PRO)
    (hge : 100 ≤ porcentaje_avance r) :
    transition_to r EstadoOT.REV u now =
      Except.ok { r with estado := EstadoOT.REV, fecha_fin_ejecucion := if r.fecha_fin_ejecucion = none then some now else r.fecha_fin_ejecucion } := by
  have hcan : can_transition_to r EstadoOT.REV = true := by
    unfold can_transition_to
    rw [hpro]
  have hnlt : ¬ porcentaje_avance r < 100 := by omega
  by_cases hff : r.fecha_fin_ejecucion = none
  · simp [transition_to, hpro, hcan, hnlt, hff]
  · simp [transition_to, hpro, hcan, hnlt, hff]

set_option maxRecDepth 8000 in
/-- Counterexample to C2 as stated: a PRO order with 200 checklist rows of
which one is incomplete still passes to REV, because
round(100 * 199 / 200) = round(99.5) = 100. -/
theorem c2_counterexample :
    (∃ d ∈ regDoscientos.detalles, d.completado = false) ∧
      regDoscientos.estado = EstadoOT.PRO ∧
      transition_to regDoscientos EstadoOT.REV none 7 =
        Except.ok { regDoscientos with estado := EstadoOT.REV } := by
  refine ⟨by decide, rfl, ?_⟩
  have hge : 100 ≤ porcentaje_avance regDoscientos :=
    (porcentaje_ge_100_iff regDoscientos).mpr (by decide)
  exact transition_pro_rev_ge regDoscientos none 7 rfl hge

/-- Claim C2 (amended): from PRO, transition_to REV succeeds exactly when
the rounded completion percentage reaches 100, which holds when the
checklist is nonempty and at least 199/200 of its rows are completed
(hence all rows whenever there are fewer than 200); otherwise it raises
ValueError. -/
theorem c2_pro_rev_rounded (r : RegistroMantenimiento) (u : Option Usuario)
    (now : Nat) (hpro : r.estado = EstadoOT.PRO) :
    (100 ≤ porcentaje_avance r ↔
      (0 < r.detalles.length ∧
        199 * r.detalles.length ≤
          200 * (r.detalles.filter (fun d => d.completado)).length))
    ∧ (porcentaje_avance r < 100 →
        transition_to r EstadoOT.REV u now = Except.error "checklist_incompleto")
    ∧ (100 ≤ porcentaje_avance r →
        transition_to r EstadoOT.REV u now =
          Except.ok { r with estado := EstadoOT.REV, fecha_fin_ejecucion := if r.fecha_fin_ejecucion = none then some now else r.fecha_fin_ejecucion }) :=
  ⟨porcentaje_ge_100_iff r,
    fun hlt => transition_pro_rev_lt r u now hpro hlt,
    fun hge => transition_pro_rev_ge r u now hpro hge⟩

/-- Witness for the amended C2: a PRO order whose single row is completed
passes to REV. -/
theorem c2_pro_rev_rounded_witness :
    100 ≤ porcentaje_avance muestraPRO1 ∧
      transition_to muestraPRO1 EstadoOT.REV none 3 =
        Except.ok { muestraPRO1 with estado := EstadoOT.REV } :=
  ⟨(porcentaje_ge_100_iff muestraPRO1).mpr (by decide),
    (c2_pro_rev_rounded muestraPRO1 none 3 rfl).2.2
      ((porcentaje_ge_100_iff muestraPRO1).mpr (by decide))⟩

/-- On a nonempty queryset, order_by("-version").first() returns a member
of maximal version. -/
theorem pickBest_version_spec {S : List PlantillaChecklist} (h : S ≠ []) :
    ∃ t, pickBest versionGt S = some t ∧ t ∈ S ∧
      ∀ q ∈ S, q.version ≤ t.version := by
  cases hp : pickBest versionGt S with
  | none => exact absurd ((pickBest_eq_none_iff versionGt S).mp hp) h
  | some t => exact ⟨t, rfl, pickBest_mem hp, pickBest_version_max hp⟩

/-- Counterexample to C3 as stated: with a failure code supplied, a
higher-version global template carrying the code is returned even though
a vigente asset-scoped template carrying the code exists. -/
theorem c3_counterexample :
    get_best_template_for [plantillaActivoFalla, plantillaGlobalFalla]
        activoUno "COR" (some 5) = some plantillaGlobalFalla
      ∧ plantillaGlobalFalla.activo = none
      ∧ plantillaGlobalFalla.es_global = true
      ∧ plantillaActivoFalla ∈
          fallaSet [plantillaActivoFalla, plantillaGlobalFalla] "COR" 5
      ∧ plantillaActivoFalla ∈
          activoSet [plantillaActivoFalla, plantillaGlobalFalla] "COR" activoUno.id := by
  refine ⟨?_, rfl, rfl, ?_, ?_⟩
  · decide
  · decide
  · decide

/-- Claim C3 (amended): among vigente templates of the requested tipo, a
supplied failure code takes precedence over every scope: when some such
template carries the code, the highest-version one is returned regardless
of scope; only when none does (or no code is supplied) is the priority
Activo over Familia over Global applied, each level by highest version and
without filtering by failure code, returning none when nothing matches. -/
theorem c3_template_resolution (db : List PlantillaChecklist) (a : Activo)
    (tipo : String) (f : Nat) :
    (fallaSet db tipo f ≠ [] →
      ∃ t, get_best_template_for db a tipo (some f) = some t ∧
        t ∈ fallaSet db tipo f ∧ ∀ q ∈ fallaSet db tipo f, q.version ≤ t.version)
    ∧ (fallaSet db tipo f = [] →
        get_best_template_for db a tipo (some f) = get_best_template_for db a tipo none)
    ∧ (activoSet db tipo a.id ≠ [] →
        ∃ t, get_best_template_for db a tipo none = some t ∧
          t ∈ activoSet db tipo a.id ∧
          ∀ q ∈ activoSet db tipo a.id, q.version ≤ t.version)
    ∧ (activoSet db tipo a.id = [] →
        ∀ fam, a.familia = some fam →
          (familiaSet db tipo fam ≠ [] →
            ∃ t, get_best_template_for db a tipo none = some t ∧
              t ∈ familiaSet db tipo fam ∧
              ∀ q ∈ familiaSet db tipo fam, q.version ≤ t.version)
          ∧ (familiaSet db tipo fam = [] →
              get_best_template_for db a tipo none =
                pickBest versionGt (globalSet db tipo)))
    ∧ (activoSet db tipo a.id = [] → a.familia = none →
        get_best_template_for db a tipo none =
          pickBest versionGt (globalSet db tipo))
    ∧ (globalSet db tipo ≠ [] →
        ∃ t, pickBest versionGt (globalSet db tipo) = some t ∧
          t ∈ globalSet db tipo ∧
          ∀ q ∈ globalSet db tipo, q.version ≤ t.version)
    ∧ (globalSet db tipo = [] →
        pickBest versionGt (globalSet db tipo) = none) := by
  refine ⟨?_, ?_, ?_, ?_, ?_, ?_, ?_⟩
  · intro hne
    obtain ⟨t, hp, hm, hmax⟩ := pickBest_version_spec hne
    exact ⟨t, by simp [get_best_template_for, hp], hm, hmax⟩
  · intro hempty
    have hp : pickBest versionGt (fallaSet db tipo f) = none :=
      (pickBest_eq_none_iff versionGt _).mpr hempty
    simp [get_best_template_for, hp]
  · intro hne
    obtain ⟨t, hp, hm, hmax⟩ := pickBest_version_spec hne
    exact ⟨t, by simp [get_best_template_for, hp], hm, hmax⟩
  · intro hemptyA fam hfam
    have hpA : pickBest versionGt (activoSet db tipo a.id) = none :=
      (pickBest_eq_none_iff versionGt _).mpr hemptyA
    constructor
    · intro hne
      obtain ⟨t, hp, hm, hmax⟩ := pickBest_version_spec hne
      exact ⟨t, by simp [get_best_template_for, hpA, hfam, hp], hm, hmax⟩
    · intro hemptyF
      have hpF : pickBest versionGt (familiaSet db tipo fam) = none :=
        (pickBest_eq_none_iff versionGt _).mpr hemptyF
      simp [get_best_template_for, hpA, hfam, hpF]
  · intro hemptyA hfam
    have hpA : pickBest versionGt (activoSet db tipo a.id) = none :=
      (pickBest_eq_none_iff versionGt _).mpr hemptyA
    simp [get_best_template_for, hpA, hfam]
  · intro hne
    exact pickBest_version_spec hne
  · intro hempty
    exact (pickBest_eq_none_iff versionGt _).mpr hempty

/-- Witness for the amended C3: over the two sample templates the failure
code match wins and returns the higher-version global template. -/
theorem c3_template_resolution_witness :
    fallaSet [plantillaActivoFalla, plantillaGlobalFalla] "COR" 5 ≠ [] ∧
      ∃ t, get_best_template_for [plantillaActivoFalla, plantillaGlobalFalla]
          activoUno "COR" (some 5) = some t ∧
        t ∈ fallaSet [plantillaActivoFalla, plantillaGlobalFalla] "COR" 5 ∧
        ∀ q ∈ fallaSet [plantillaActivoFalla, plantillaGlobalFalla] "COR" 5,
          q.version ≤ t.version :=
  ⟨by decide,
    (c3_template_resolution [plantillaActivoFalla, plantillaGlobalFalla]
      activoUno "COR" 5).1 (by decide)⟩

/-- Claim C8: aplicar_plantilla replaces the checklist wholesale — one row
per template item with the same tarea, obligatorio, requiere_evidencia and
orden, none of the previous rows surviving, plantilla_aplicada pointing at
the template — and the new rows already stand in the (orden, id) display
order, which lists the template items in their own (orden, id) order.
Fresh primary keys are assumed larger than every old row key. -/
theorem c8_aplicar_plantilla (r : RegistroMantenimiento)
    (pl : PlantillaChecklist) (nextId : Nat)
    (hfresh : ∀ d ∈ r.detalles, d.id < nextId) :
    ((aplicar_plantilla r pl nextId).detalles.map detalleCampos =
        (List.insertionSort itemLe pl.items).map itemCampos)
      ∧ (aplicar_plantilla r pl nextId).detalles.length = pl.items.length
      ∧ (aplicar_plantilla r pl nextId).plantilla_aplicada = some pl.id
      ∧ (∀ d ∈ r.detalles, d ∉ (aplicar_plantilla r pl nextId).detalles)
      ∧ List.Sorted detalleLe (aplicar_plantilla r pl nextId).detalles := by
  refine ⟨?_, ?_, rfl, ?_, ?_⟩
  · exact buildDetalles_map (List.insertionSort itemLe pl.items) nextId
  · rw [show (aplicar_plantilla r pl nextId).detalles =
        buildDetalles nextId (List.insertionSort itemLe pl.items) from rfl,
      buildDetalles_length]
    exact (List.perm_insertionSort itemLe pl.items).length_eq
  · intro d hd hmem
    have h1 : nextId ≤ d.id :=
      buildDetalles_id_ge (List.insertionSort itemLe pl.items) nextId d hmem
    have h2 : d.id < nextId := hfresh d hd
    omega
  · have hsorted : List.Sorted itemLe (List.insertionSort itemLe pl.items) :=
      List.sorted_insertionSort itemLe pl.items
    have hord : (List.insertionSort itemLe pl.items).Pairwise
        (fun a b => a.orden ≤ b.orden) := by
      refine hsorted.imp ?_
      intro a b hab
      rcases hab with h | ⟨h, -⟩
      · omega
      · omega
    exact buildDetalles_sorted (List.insertionSort itemLe pl.items) hord nextId

/-- Witness for C8: applying the two-item sample template to an order with
one old row yields exactly the two copied rows in display order. -/
theorem c8_aplicar_plantilla_witness :
    (∀ d ∈ muestraOT.detalles, d.id < 5) ∧
      (((aplicar_plantilla muestraOT plantillaDosItems 5).detalles.map detalleCampos =
          (List.insertionSort itemLe plantillaDosItems.items).map itemCampos)
        ∧ (aplicar_plantilla muestraOT plantillaDosItems 5).detalles.length =
            plantillaDosItems.items.length
        ∧ (aplicar_plantilla muestraOT plantillaDosItems 5).plantilla_aplicada = some 7
        ∧ (∀ d ∈ muestraOT.detalles,
            d ∉ (aplicar_plantilla muestraOT plantillaDosItems 5).detalles)
        ∧ List.Sorted detalleLe (aplicar_plantilla muestraOT plantillaDosItems 5).detalles) :=
  ⟨by decide, c8_aplicar_plantilla muestraOT plantillaDosItems 5 (by decide)⟩

/-- Claim C5: a reading with a strictly later reading of the same asset on
record is skipped by sync_alert_for_reading under only_latest=True (the
default used by the post-save signal), and the alert table is returned
unchanged: nothing is created, updated or closed. -/
theorem c5_sync_skips_stale (lecturas : List LecturaHorometro)
    (alertas : List AlertaMantenimiento) (lh : LecturaHorometro) (umbral : ℚ)
    (now : Nat) (hlater : has_later_reading lecturas lh = true) :
    sync_alert_for_reading lecturas alertas lh umbral true now =
      ({ skipped := true, reason := "no_es_ultima_semana" }, alertas) := by
  unfold sync_alert_for_reading
  rw [hlater]
  rfl

/-- Witness for C5: the week-20 reading is stale next to the week-30 one,
so the open alert survives untouched. -/
theorem c5_sync_skips_stale_witness :
    has_later_reading [lecturaVieja, lecturaAlta] lecturaVieja = true ∧
      sync_alert_for_reading [lecturaVieja, lecturaAlta] [alertaAbierta]
          lecturaVieja ALERTA_UMBRAL true 3 =
        ({ skipped := true, reason := "no_es_ultima_semana" }, [alertaAbierta]) :=
  ⟨by decide,
    c5_sync_skips_stale [lecturaVieja, lecturaAlta] [alertaAbierta]
      lecturaVieja ALERTA_UMBRAL 3 (by decide)⟩

/-- Claim C4: for the most recent reading of an asset whose delta since the
last preventive is defined and non-negative, with the fixed 70000
threshold: at or above the threshold the synchronizer leaves an alert row
for that asset, year and week holding the delta and the threshold (fresh
in state NUEVA, or the existing row updated); below the threshold it
closes the open alert whose year/week key is not later than the reading,
marking it CERRADA. -/
theorem c4_sync_latest (lecturas : List LecturaHorometro)
    (alertas : List AlertaMantenimiento) (lh : LecturaHorometro) (now : Nat)
    (d : ℚ) (hlatest : has_later_reading lecturas lh = false)
    (hd : delta_prev lh = some d) (hd0 : ¬ d < 0) :
    (ALERTA_UMBRAL ≤ d →
      ∃ a ∈ (sync_alert_for_reading lecturas alertas lh ALERTA_UMBRAL true now).2,
        a.activo = lh.activo ∧ a.anio = lh.anio ∧ a.semana = lh.semana ∧
          a.valor_ciclos = d ∧ a.umbral = ALERTA_UMBRAL ∧
          (((sync_alert_for_reading lecturas alertas lh ALERTA_UMBRAL true now).1.created = true ∧
              a.estado = EstadoAlerta.NUEVA) ∨
            (sync_alert_for_reading lecturas alertas lh ALERTA_UMBRAL true now).1.updated = true))
    ∧ (d < ALERTA_UMBRAL →
        ∀ oa, openAlertFor alertas lh.activo = some oa →
          ywkKey oa.anio oa.semana ≤ ywkKey lh.anio lh.semana →
          closeAlert now oa ∈ (sync_alert_for_reading lecturas alertas lh ALERTA_UMBRAL true now).2 ∧
            (sync_alert_for_reading lecturas alertas lh ALERTA_UMBRAL true now).1.closed_existing = true) := by
  constructor
  · intro hu
    rcases hopen : openAlertFor alertas lh.activo with _ | oa
    · rcases hfind : alertas.find? (tripleMatch lh) with _ | a0
      · have hsync : sync_alert_for_reading lecturas alertas lh ALERTA_UMBRAL true now =
            ({ created := true }, alertas ++ [nuevaAlerta lh d ALERTA_UMBRAL]) := by
          simp [sync_alert_for_reading, hlatest, hd, hd0, hu, hopen, hfind]
        rw [hsync]
        exact ⟨nuevaAlerta lh d ALERTA_UMBRAL, List.mem_append_right alertas (by simp),
          rfl, rfl, rfl, rfl, rfl, Or.inl ⟨rfl, rfl⟩⟩
      · have hsync : sync_alert_for_reading lecturas alertas lh ALERTA_UMBRAL true now =
            ({ updated := true },
              updateFirst (tripleMatch lh) (actualizaValores d ALERTA_UMBRAL) alertas) := by
          simp [sync_alert_for_reading, hlatest, hd, hd0, hu, hopen, hfind]
        have hp : tripleMatch lh a0 = true := List.find?_some hfind
        simp only [tripleMatch, Bool.and_eq_true, decide_eq_true_eq] at hp
        rw [hsync]
        exact ⟨actualizaValores d ALERTA_UMBRAL a0,
          updateFirst_mem_of_find hfind, hp.1.1, hp.1.2, hp.2, rfl, rfl, Or.inr rfl⟩
    · by_cases hkey : ywkKey oa.anio oa.semana < ywkKey lh.anio lh.semana
      · rcases hfind : (updateFirst (fun a => decide (a = oa)) (closeAlert now) alertas).find?
            (tripleMatch lh) with _ | a0
        · have hsync : sync_alert_for_reading lecturas alertas lh ALERTA_UMBRAL true now =
              ({ created := true, closed_previous := true },
                updateFirst (fun a => decide (a = oa)) (closeAlert now) alertas ++
                  [nuevaAlerta lh d ALERTA_UMBRAL]) := by
            simp [sync_alert_for_reading, hlatest, hd, hd0, hu, hopen, hkey, hfind]
          rw [hsync]
          exact ⟨nuevaAlerta lh d ALERTA_UMBRAL, List.mem_append_right _ (by simp),
            rfl, rfl, rfl, rfl, rfl, Or.inl ⟨rfl, rfl⟩⟩
        · have hsync : sync_alert_for_reading lecturas alertas lh ALERTA_UMBRAL true now =
              ({ updated := true, closed_previous := true },
                updateFirst (tripleMatch lh) (actualizaValores d ALERTA_UMBRAL)
                  (updateFirst (fun a => decide (a = oa)) (closeAlert now) alertas)) := by
            simp [sync_alert_for_reading, hlatest, hd, hd0, hu, hopen, hkey, hfind]
          have hp : tripleMatch lh a0 = true := List.find?_some hfind
          simp only [tripleMatch, Bool.and_eq_true, decide_eq_true_eq] at hp
          rw [hsync]
          exact ⟨actualizaValores d ALERTA_UMBRAL a0,
            updateFirst_mem_of_find hfind, hp.1.1, hp.1.2, hp.2, rfl, rfl, Or.inr rfl⟩
      · rcases hfind : alertas.find? (tripleMatch lh) with _ | a0
        · have hsync : sync_alert_for_reading lecturas alertas lh ALERTA_UMBRAL true now =
              ({ created := true }, alertas ++ [nuevaAlerta lh d ALERTA_UMBRAL]) := by
            simp [sync_alert_for_reading, hlatest, hd, hd0, hu, hopen, hkey, hfind]
          rw [hsync]
          exact ⟨nuevaAlerta lh d ALERTA_UMBRAL, List.mem_append_right alertas (by simp),
            rfl, rfl, rfl, rfl, rfl, Or.inl ⟨rfl, rfl⟩⟩
        · have hsync : sync_alert_for_reading lecturas alertas lh ALERTA_UMBRAL true now =
              ({ updated := true },
                updateFirst (tripleMatch lh) (actualizaValores d ALERTA_UMBRAL) alertas) := by
            simp [sync_alert_for_reading, hlatest, hd, hd0, hu, hopen, hkey, hfind]
          have hp : tripleMatch lh a0 = true := List.find?_some hfind
          simp only [tripleMatch, Bool.and_eq_true, decide_eq_true_eq] at hp
          rw [hsync]
          exact ⟨actualizaValores d ALERTA_UMBRAL a0,
            updateFirst_mem_of_find hfind, hp.1.1, hp.1.2, hp.2, rfl, rfl, Or.inr rfl⟩
  · intro hlt oa hoa hkey
    have hnu : ¬ ALERTA_UMBRAL ≤ d := not_le.mpr hlt
    have hsync : sync_alert_for_reading lecturas alertas lh ALERTA_UMBRAL true now =
        ({ closed_existing := true },
          updateFirst (fun a => decide (a = oa)) (closeAlert now) alertas) := by
      simp [sync_alert_for_reading, hlatest, hd, hd0, hnu, hoa, hkey]
    have hmem : oa ∈ alertas := List.mem_of_mem_filter (pickBest_mem hoa)
    rw [hsync]
    exact ⟨updateFirst_mem_self hmem, rfl⟩

/-- Witness for C4: the week-30 reading with delta 90000 creates a NUEVA
alert on an empty alert table. -/
theorem c4_sync_latest_witness :
    ALERTA_UMBRAL ≤ (90000 : ℚ) ∧
      ∃ a ∈ (sync_alert_for_reading [lecturaAlta] [] lecturaAlta ALERTA_UMBRAL true 3).2,
        a.activo = lecturaAlta.activo ∧ a.anio = lecturaAlta.anio ∧
          a.semana = lecturaAlta.semana ∧ a.valor_ciclos = (90000 : ℚ) ∧
          a.umbral = ALERTA_UMBRAL ∧
          (((sync_alert_for_reading [lecturaAlta] [] lecturaAlta ALERTA_UMBRAL true 3).1.created = true ∧
              a.estado = EstadoAlerta.NUEVA) ∨
            (sync_alert_for_reading [lecturaAlta] [] lecturaAlta ALERTA_UMBRAL true 3).1.updated = true) :=
  ⟨by decide,
    (c4_sync_latest [lecturaAlta] [] lecturaAlta 3 90000 (by decide) rfl
      (by decide)).1 (by decide)⟩
